import Mathlib

/-!
Verification of the KinderSchutz-Bot response-resolution pipeline.

This file gives a shallow embedding of the repository's chat core:

* the client-side chat service (concern-keyword scanner, safety-resources
  message, greeting-pattern cache, bounded exact-match response cache and
  the orchestrating response generator), and
* the two versions of the HTTP API route handler (the output safety filter,
  the route-level response cache and the error classification chains),

together with theorems settling the specified properties of that code.
-/

set_option maxRecDepth 16000

namespace Chatbot

/-- Model of the JavaScript `toLowerCase` restricted to the character
repertoire this code base actually compares: ASCII letters and the German
umlauts that occur in the keyword lists. All other characters are fixed. -/
def jsCharToLower (c : Char) : Char :=
  if c = 'Ä' then 'ä' else if c = 'Ö' then 'ö' else if c = 'Ü' then 'ü' else c.toLower

/-- Lowercasing of a whole string, character by character. -/
def jsToLower (s : String) : String := String.mk (s.data.map jsCharToLower)

/-- Containment of `pat` as a contiguous substring of a character list;
model of the JavaScript `String.prototype.includes`. -/
def listIncludes (pat : List Char) : List Char → Bool
  | [] => pat.isEmpty
  | c :: rest => pat.isPrefixOf (c :: rest) || listIncludes pat rest

/-- `hay.includes(pat)` on strings. -/
def strIncludes (hay pat : String) : Bool := listIncludes pat.data hay.data

/-- `hay.startsWith(pat)` on strings, used to model `^`-anchored regexes. -/
def strStarts (hay pat : String) : Bool := pat.data.isPrefixOf hay.data

/-- The fixed concern keyword list of the chat service (`CONCERN_KEYWORDS`). -/
def CONCERN_KEYWORDS : List String :=
  [("missbrauch"), ("geschlagen"), ("angefasst"), ("berührt"), ("gewalt"), ("angst"),
   ("trainer"), ("lehrer"), ("verein"), ("mannschaft"), ("team"), ("schule"),
   ("wehtun"), ("wehtut"), ("weh tut"), ("hilfe"), ("allein"), ("geheimnis"),
   ("nicht sagen"), ("nicht erzählen"), ("nicht verraten"), ("droht"),
   ("nicht erlaubt"), ("gezwungen"), ("zwingen"), ("schlecht gefühl"),
   ("eklig"), ("ekelt"), ("traurig"), ("sexuell"), ("sexual"), ("not allowed"), ("touch")]

/-- `containsConcerningContent` from the chat service: case-insensitive
substring match of the text against every concern keyword. -/
def containsConcerningContent (text : String) : Bool :=
  CONCERN_KEYWORDS.any (fun keyword => strIncludes (jsToLower text) (jsToLower keyword))

/-- The static `EMERGENCY_RESOURCES` records: name, description, contact. -/
def EMERGENCY_RESOURCES : List (String × String × String) :=
  [("Nummer gegen Kummer", "Kostenlose Telefon-Beratung für Kinder und Jugendliche", "116 111"),
   ("Hilfetelefon Sexueller Missbrauch", "Kostenlose und anonyme Beratung", "0800 22 55 530"),
   ("Kinderschutz-Zentrum", "Hilfe bei Gewalt gegen Kinder",
    "In deiner Stadt oder unter www.kinderschutz-zentren.org")]

/-- `generateSafetyResourcesMessage` from the chat service: the fixed
preamble, one rendered line per emergency resource, and the closing line. -/
def generateSafetyResourcesMessage : String :=
  (EMERGENCY_RESOURCES.foldl
    (fun message r =>
      message ++ ("- **") ++ r.1 ++ ("**: ") ++ r.2.1 ++ (". Du erreichst sie unter ")
        ++ r.2.2 ++ ("\n"))
    ("Es ist sehr wichtig und mutig von dir, darüber zu sprechen. Ich bin immer für dich da, aber manchmal ist es auch gut, mit einem Erwachsenen zu reden, dem du vertraust. Das könnten deine Eltern, ein anderer Verwandter, ein Lehrer oder ein Schulberater sein.\n\nHier sind einige Stellen, die dir auch helfen können:\n\n"))
  ++ ("\nDu bist nicht allein, und es ist nicht deine Schuld. Es gibt Menschen, die dir helfen können.")

/-- One conversation turn: the sender tag ("user" or "bot") and the text. -/
structure Msg where
  sender : String
  text : String
  deriving DecidableEq

/-- `hasConcerningPattern` from the chat service: take the last 3 user
turns (`filter` + `slice(-3)`), count with a fold how many individually
contain concerning content, and compare the count with 2. -/
def hasConcerningPattern (messages : List Msg) : Bool :=
  let userMessages :=
    (messages.filter (fun m => m.sender == ("user"))).drop
      ((messages.filter (fun m => m.sender == ("user"))).length - 3)
  decide (2 ≤ userMessages.foldl
    (fun count m => count + (if containsConcerningContent m.text then 1 else 0)) 0)

/-- The ordered static greeting/meta/thanks/farewell patterns
(`COMMON_PATTERNS`), each given as the boolean test of its regex together
with its canned reply. -/
def COMMON_PATTERNS : List ((String → Bool) × String) :=
  [(fun input => [("hallo"), ("hi"), ("hey"), ("guten tag"), ("servus"), ("moin")].any
      (fun p => strStarts (jsToLower input) p),
    "Hallo! Schön, dass du da bist. Wie geht es dir heute? Du kannst mir alles erzählen, was dich beschäftigt."),
   (fun input => [("was kannst du"), ("wofür bist du"), ("wie funktionierst du")].any
      (fun p => strIncludes (jsToLower input) p),
    "Ich bin FreundBot, dein digitaler Freund. Du kannst mit mir über alles reden, was dich beschäftigt. Ich kann dir zuhören, wenn du Sorgen hast oder über deine Erfahrungen sprechen möchtest. Wenn du Hilfe brauchst, kann ich dir auch sagen, wo du sie bekommen kannst. Worüber möchtest du sprechen?"),
   (fun input => [("danke"), ("dankeschön"), ("vielen dank")].any
      (fun p => strIncludes (jsToLower input) p),
    "Gerne! Ich freue mich, dass ich dir helfen konnte. Gibt es noch etwas, worüber du sprechen möchtest?"),
   (fun input => [("tschüss"), ("auf wiedersehen"), ("bis später"), ("bye"), ("ciao")].any
      (fun p => strIncludes (jsToLower input) p),
    "Tschüss! Es hat mich gefreut, mit dir zu sprechen. Komm jederzeit wieder, wenn du reden möchtest. Pass gut auf dich auf!")]

/-- The exact-match response cache, as an insertion-ordered association
list: a JavaScript `Map` keeps keys in first-insertion order, and
`keys().next().value` is the oldest-inserted key. -/
abbrev Cache := List (String × String)

/-- `Map.prototype.set`: updating an existing key keeps its insertion
position; a new key is appended at the end. -/
def mapSet (st : Cache) (k v : String) : Cache :=
  if st.any (fun e => e.1 == k) then st.map (fun e => if e.1 == k then (k, v) else e)
  else st ++ [(k, v)]

/-- `getCachedResponse` from the chat service: the exact-match cache is
consulted first under the lowercased input, then the ordered pattern list;
the first matching pattern wins. -/
def getCachedResponse (st : Cache) (input : String) : Option String :=
  match st.lookup (jsToLower input) with
  | some r => some r
  | none => COMMON_PATTERNS.findSome? (fun item => if item.1 input then some item.2 else none)

/-- The size guard both caches run after an insertion: above 100 entries
the oldest-inserted key (the head of the insertion-ordered list) is
deleted. -/
def trimCache (c : Cache) : Cache := if 100 < c.length then c.drop 1 else c

/-- `cacheResponse` from the chat service: accept only inputs of length
4..99 that are not concerning; store under the lowercased input; if the
size then exceeds 100, delete the oldest-inserted key. -/
def cacheResponse (st : Cache) (input response : String) : Cache :=
  if 3 < input.length ∧ input.length < 100 ∧ containsConcerningContent input = false then
    trimCache (mapSet st (jsToLower input) response)
  else st

/-- The literal timeout fallback sentence of the chat service. -/
def REPLY_TIMEOUT : String :=
  "Es tut mir leid, aber ich brauche gerade etwas länger für die Antwort. Kannst du deine Frage vielleicht etwas anders stellen?"

/-- The literal network-problem fallback sentence of the chat service. -/
def REPLY_NETWORK : String :=
  "Es scheint ein Problem mit der Internetverbindung zu geben. Bitte prüfe deine Verbindung und versuche es noch einmal."

/-- The literal credentials fallback sentence of the chat service. -/
def REPLY_AUTH : String :=
  "Es tut mir leid, ich habe ein Problem mit meiner API-Verbindung. Ein Erwachsener sollte den API-Schlüssel in den Umgebungsvariablen überprüfen."

/-- The literal model-problem fallback sentence of the chat service. -/
def REPLY_MODEL : String :=
  "Es tut mir leid, ich habe ein Problem mit meinem Sprachmodell. Ein Erwachsener sollte die Konfiguration überprüfen."

/-- The literal server-problem fallback sentence of the chat service. -/
def REPLY_SERVER : String :=
  "Es tut mir leid, der Server hat ein Problem. Ein Erwachsener sollte die Serverlogs überprüfen."

/-- The literal gateway-problem fallback sentence of the chat service. -/
def REPLY_GATEWAY : String :=
  "Es tut mir leid, es gibt ein Problem mit der Verbindung zum API-Server. Dies könnte ein vorübergehendes Problem sein. Bitte versuche es in einigen Minuten erneut."

/-- The four generic fallback sentences the chat service picks from
pseudo-randomly when no more specific classification applies. -/
def fallbackResponses : List String :=
  [("Entschuldige, ich habe gerade ein Problem. Kannst du das bitte noch einmal sagen?"),
   ("Ich verstehe dich leider gerade nicht so gut. Magst du es anders ausdrücken?"),
   ("Es tut mir leid, aber ich kann gerade nicht richtig antworten. Lass uns in ein paar Minuten noch einmal versuchen zu sprechen."),
   ("Ich habe gerade technische Schwierigkeiten. Kannst du mir helfen und deine Nachricht noch einmal senden?")]

/-- Every literal sentence the chat service's catch block can produce. -/
def errorReplies : List String :=
  [REPLY_TIMEOUT, REPLY_NETWORK, REPLY_AUTH, REPLY_MODEL, REPLY_SERVER, REPLY_GATEWAY]
    ++ fallbackResponses

/-- The catch block of `generateBotResponse`: classify the caught error by
its message text, in the source's order; an unclassified error picks one of
the four generic fallback sentences pseudo-randomly (`rand` models the
random draw, reduced modulo the list length). -/
def handleError (msg : String) (rand : Nat) : String :=
  if msg = ("Request timeout") then REPLY_TIMEOUT
  else if strIncludes msg ("Failed to fetch") || strIncludes msg ("NetworkError") then
    REPLY_NETWORK
  else if strIncludes msg ("API-Schlüssel") || strIncludes msg ("API key")
      || strIncludes msg ("Authentifizierungsfehler") then REPLY_AUTH
  else if strIncludes msg ("Modellfehler") || strIncludes msg ("model") then REPLY_MODEL
  else if strIncludes msg ("Server-Fehler") || strIncludes msg ("500") then REPLY_SERVER
  else if strIncludes msg ("502") then REPLY_GATEWAY
  else fallbackResponses.getD (rand % 4) ("")

/-- Outcome of the awaited remote call as observed by the chat service:
either a parsed JSON body carrying a `response` string, or a thrown error
carrying a message (timeouts, network failures, HTTP error translations). -/
inductive RemoteOutcome where
  | success (response : String)
  | failure (message : String)
  deriving DecidableEq

/-- Result of one resolution: the reply text, the cache afterwards, and
whether the remote-client stage ran. -/
structure ResolveResult where
  response : String
  cache : Cache
  usedRemote : Bool
  deriving DecidableEq

/-- `generateBotResponse` from the chat service — the response resolver.
The remote call itself is abstracted by `outcome`; `rand` models the
pseudo-random draw of the generic fallback branch. A successful result
whose `response` field is empty is falsy in the source and throws
`Empty response received` into the catch block. -/
def generateBotResponse (userInput : String) (messageHistory : List Msg) (st : Cache)
    (outcome : RemoteOutcome) (rand : Nat) : ResolveResult :=
  if containsConcerningContent userInput || hasConcerningPattern messageHistory then
    { response := generateSafetyResourcesMessage, cache := st, usedRemote := false }
  else
    match getCachedResponse st userInput with
    | some cached => { response := cached, cache := st, usedRemote := false }
    | none =>
      match outcome with
      | .success resp =>
        if resp = "" then
          { response := handleError ("Empty response received") rand, cache := st,
            usedRemote := true }
        else
          { response := resp, cache := cacheResponse st userInput resp, usedRemote := true }
      | .failure msg =>
        { response := handleError msg rand, cache := st, usedRemote := true }

/-! ## The HTTP API route (src/pages/api/chat.js and the older copy src/unnamed/part_000) -/

/-- Test of the carve-out lookahead in the output safety filter: the three
phrase tails the source regex explicitly allows after a match of `sex`. -/
def carveOutOk (rest : List Char) : Bool :=
  ("ual violence").data.isPrefixOf rest || ("ual abuse").data.isPrefixOf rest
    || ("ual harassment").data.isPrefixOf rest

/-- Scan for the source regex `sex(?!ual violence|ual abuse|ual harassment)`
over an already lowercased character list: some occurrence of `sex` not
followed by one of the carved-out tails. -/
def sexScan : List Char → Bool
  | [] => false
  | c :: rest =>
    (("sex").data.isPrefixOf (c :: rest) && !carveOutOk (rest.drop 2)) || sexScan rest

/-- The plain-substring members of the output filter blocklist. -/
def blockedSubstrings : List String :=
  [("porn"), ("explicit"), ("adult content"), ("nicht für kinder"),
   ("not appropriate for children"), ("kill yourself"), ("self-harm"), ("suicide")]

/-- `isSafeResponse` from the API route: the text is safe when no blocked
pattern matches it; all the source regexes carry the case-insensitive flag. -/
def isSafeResponse (text : String) : Bool :=
  !(sexScan (jsToLower text).data
    || blockedSubstrings.any (fun p => strIncludes (jsToLower text) p))

/-- The route cache key: the raw message text, a colon, and the decimal
rendering of the history length. -/
def mkCacheKey (message : String) (histLen : Nat) : String :=
  message ++ (":") ++ toString histLen

/-- Outcome of the axios call as observed by the route: a parsed reply
content, an abort (client timer or transport timeout), an HTTP error
response with its status, error message and a flag for the body shape the
model-error classifier looks for, or a plain thrown error with a message. -/
inductive RemoteResult where
  | ok (content : String)
  | abortErr
  | httpErr (status : Nat) (message : String) (modelIssue : Bool)
  | netErr (message : String)
  deriving DecidableEq

/-- The message of the error `handleApiRequest` throws for a 401/403. -/
def AUTH_TRANSFORM_MSG : String :=
  "API-Authentifizierungsfehler: Bitte überprüfen Sie den API-Schlüssel"

/-- The message of the error `handleApiRequest` throws for a model issue. -/
def MODEL_TRANSFORM_MSG : String := "API-Modellfehler: Bitte überprüfen Sie den Modellnamen"

/-- `handleApiRequest` from src/pages/api/chat.js: a 401/403 response, and a
model-shaped error body, are converted into plain thrown errors with fixed
messages (losing the original response object); everything else passes
through unchanged. -/
def handleApiRequest : RemoteResult → RemoteResult
  | .httpErr status msg mi =>
    if status = 401 ∨ status = 403 then .netErr AUTH_TRANSFORM_MSG
    else if mi then .netErr MODEL_TRANSFORM_MSG
    else .httpErr status msg mi
  | r => r

/-- The canned redirect sentence the route answers with when the output
filter rejects the remote reply. -/
def SAFE_REDIRECT : String :=
  "Es tut mir leid, ich kann auf diese Frage nicht antworten. Lass uns über etwas anderes sprechen. Wie war dein Tag heute?"

/-- The canned route reply for an aborted (timed-out) remote call. -/
def API_TIMEOUT_RESP : String :=
  "Es tut mir leid, ich brauche etwas länger zum Nachdenken. Könntest du deine Frage vielleicht etwas einfacher stellen?"

/-- The canned route reply for a 401 from the remote service. -/
def API_AUTH_RESP : String :=
  "Es tut mir leid, ich habe ein Problem mit meiner API-Verbindung. Ein Erwachsener sollte den API-Schlüssel in den Umgebungsvariablen überprüfen."

/-- The generic technical-problem reply of the old route's outer catch. -/
def OLD_GENERIC_RESP : String :=
  "Es tut mir leid, ich habe gerade ein technisches Problem. Kannst du es in ein paar Minuten noch einmal versuchen?"

/-- The missing-key reply of the old route's outer catch. -/
def OLD_KEY_RESP : String :=
  "Es tut mir leid, ich habe ein Problem mit meiner API-Verbindung. Ein Erwachsener sollte den API-Schlüssel in den Umgebungsvariablen überprüfen."

/-- The network-problem reply of the old route's outer catch. -/
def OLD_NET_RESP : String :=
  "Es scheint ein Netzwerkproblem zu geben. Bist du mit dem Internet verbunden?"

/-- The outer catch of the old route (src/unnamed/part_000): classify the
caught error by its message and answer with status 200 and source `error`. -/
def classifyOldOuter (msg : String) : String :=
  if strIncludes msg ("API key") then OLD_KEY_RESP
  else if strIncludes msg ("network") then OLD_NET_RESP
  else OLD_GENERIC_RESP

/-- Observable outcome of one route invocation: a 200 JSON body with a
`response` text and a `source` tag, an error JSON body with its status, or
a crash of the handler function itself (an exception that escapes it). -/
inductive HandlerResult where
  | resp (status : Nat) (response : String) (source : String)
  | err (status : Nat) (error : String)
  | crash
  deriving DecidableEq

/-- The old API route handler (src/unnamed/part_000). The request is
given by its method, optional message, history length and credential
presence; `remote` abstracts the axios call. A missing or empty credential
throws `Missing API key`, which the inner catch re-throws and the outer
catch classifies — its message contains `API key`, so the old route answers
200 with the key reply and source `error`. -/
def handlerOld (method : String) (message : Option String) (histLen : Nat) (hasKey : Bool)
    (cache : Cache) (remote : RemoteResult) : HandlerResult × Cache :=
  if method ≠ ("POST") then (.err 405 ("Method not allowed"), cache)
  else
    match message with
    | none => (.err 400 ("Message is required"), cache)
    | some m =>
      if m = "" then (.err 400 ("Message is required"), cache)
      else
        match cache.lookup (mkCacheKey m histLen) with
        | some v => (.resp 200 v ("cache"), cache)
        | none =>
          if hasKey = false then
            (.resp 200 (classifyOldOuter ("Missing API key")) ("error"), cache)
          else
            match remote with
            | .ok content =>
              if isSafeResponse content then
                (.resp 200 content ("api"),
                 trimCache (mapSet cache (mkCacheKey m histLen) content))
              else
                (.resp 200 SAFE_REDIRECT ("fallback"),
                 mapSet cache (mkCacheKey m histLen) SAFE_REDIRECT)
            | .abortErr => (.resp 200 API_TIMEOUT_RESP ("timeout"), cache)
            | .httpErr status msg _ =>
              if status = 401 then (.resp 200 API_AUTH_RESP ("auth_error"), cache)
              else (.resp 200 (classifyOldOuter msg) ("error"), cache)
            | .netErr msg => (.resp 200 (classifyOldOuter msg) ("error"), cache)

/-- The current API route handler (src/pages/api/chat.js). It differs from
the old one in routing the axios call through `handleApiRequest` and in its
outer catch: that catch begins with `clearTimeout(timeoutId)`, but
`timeoutId` is a `const` declared inside the `try` block and is not in
scope in the catch block, so in this strict-mode module every path that
reaches the outer catch (missing credential, re-thrown HTTP errors, plain
network errors) raises a `ReferenceError` and the handler crashes instead
of sending its 500 response. -/
def handlerNew (method : String) (message : Option String) (histLen : Nat) (hasKey : Bool)
    (cache : Cache) (remote : RemoteResult) : HandlerResult × Cache :=
  if method ≠ ("POST") then (.err 405 ("Method not allowed"), cache)
  else
    match message with
    | none => (.err 400 ("Message is required"), cache)
    | some m =>
      if m = "" then (.err 400 ("Message is required"), cache)
      else
        match cache.lookup (mkCacheKey m histLen) with
        | some v => (.resp 200 v ("cache"), cache)
        | none =>
          if hasKey = false then (.crash, cache)
          else
            match handleApiRequest remote with
            | .ok content =>
              if isSafeResponse content then
                (.resp 200 content ("api"),
                 trimCache (mapSet cache (mkCacheKey m histLen) content))
              else
                (.resp 200 SAFE_REDIRECT ("fallback"),
                 mapSet cache (mkCacheKey m histLen) SAFE_REDIRECT)
            | .abortErr => (.resp 200 API_TIMEOUT_RESP ("timeout"), cache)
            | .httpErr status _ _ =>
              if status = 401 then (.resp 200 API_AUTH_RESP ("auth_error"), cache)
              else (.crash, cache)
            | .netErr _ => (.crash, cache)

/-! ## Statement-side definitions used by the theorems -/

/-- The last 3 user turns of a conversation window, phrased directly:
filter the user turns and keep the final three in order. -/
def lastThreeUserTurns (msgs : List Msg) : List Msg :=
  ((msgs.filter (fun m => m.sender == ("user"))).reverse.take 3).reverse

/-- The error messages the catch block of `generateBotResponse` classifies
specifically, i.e. the union of the conditions of its non-random branches. -/
def isSpecificErr (msg : String) : Bool :=
  (msg == ("Request timeout"))
    || (strIncludes msg ("Failed to fetch") || strIncludes msg ("NetworkError"))
    || (strIncludes msg ("API-Schlüssel") || strIncludes msg ("API key")
        || strIncludes msg ("Authentifizierungsfehler"))
    || (strIncludes msg ("Modellfehler") || strIncludes msg ("model"))
    || (strIncludes msg ("Server-Fehler") || strIncludes msg ("500"))
    || strIncludes msg ("502")

/-- A synthetic remote reply that is clean except for the carved-out phrase
`sexual abuse`. -/
def carveOutReply : String := "It is brave to talk about sexual abuse with a trusted adult."

/-- One resolver invocation: its input, history window, remote outcome and
random draw. -/
structure Op where
  input : String
  history : List Msg
  outcome : RemoteOutcome
  rand : Nat

/-- The cache produced by running a sequence of resolver invocations from
the initial empty cache. -/
def runOps (ops : List Op) : Cache :=
  ops.foldl
    (fun st op => (generateBotResponse op.input op.history st op.outcome op.rand).cache) []

/-- A concrete cache with 100 distinct eligible entries, used to witness
the eviction theorem. -/
def demoCache : Cache :=
  (List.range 100).map
    (fun n => (String.mk [('z'), ('z'), Char.ofNat (97 + n / 10), Char.ofNat (97 + n % 10)],
      ("v")))

/-! ## Helper lemmas -/

theorem length_jsToLower (s : String) : (jsToLower s).length = s.length := by
  show (s.data.map jsCharToLower).length = s.data.length
  exact List.length_map s.data jsCharToLower

theorem foldl_concern_count (l : List Msg) (k : Nat) :
    l.foldl (fun count m => count + (if containsConcerningContent m.text then 1 else 0)) k
      = k + l.countP (fun m => containsConcerningContent m.text) := by
  induction l generalizing k with
  | nil => simp
  | cons a t ih =>
    simp only [List.foldl_cons, List.countP_cons, ih]
    by_cases h : containsConcerningContent a.text = true
    · simp [h]; omega
    · simp [h]

theorem handleError_mem (msg : String) (rand : Nat) : handleError msg rand ∈ errorReplies := by
  unfold handleError
  split
  · simp [errorReplies]
  split
  · simp [errorReplies]
  split
  · simp [errorReplies]
  split
  · simp [errorReplies]
  split
  · simp [errorReplies]
  split
  · simp [errorReplies]
  rcases (by omega : rand % 4 = 0 ∨ rand % 4 = 1 ∨ rand % 4 = 2 ∨ rand % 4 = 3)
    with h | h | h | h <;>
    simp [errorReplies, fallbackResponses, h]

theorem lookup_cons_pair (k : String) (a : String × String) (t : Cache) :
    ((a :: t) : Cache).lookup k = if (k == a.1) = true then some a.2 else t.lookup k := by
  rcases a with ⟨ka, v⟩
  cases hk : k == ka <;> simp [List.lookup, hk]

theorem lookup_none_forall {st : Cache} {k : String} (h : st.lookup k = none) :
    ∀ e ∈ st, (k == e.1) = false := by
  induction st with
  | nil => intro e he; cases he
  | cons a t ih =>
    intro e he
    rw [lookup_cons_pair] at h
    rcases List.mem_cons.mp he with rfl | he2
    · by_cases hk : (k == e.1) = true
      · rw [if_pos hk] at h; cases h
      · simpa using hk
    · by_cases hk : (k == a.1) = true
      · rw [if_pos hk] at h; cases h
      · rw [if_neg hk] at h; exact ih h e he2

theorem lookup_append_left_none {l1 l2 : Cache} {k : String} (h : l1.lookup k = none) :
    (l1 ++ l2).lookup k = l2.lookup k := by
  induction l1 with
  | nil => simp
  | cons a t ih =>
    rw [lookup_cons_pair] at h
    rw [List.cons_append, lookup_cons_pair]
    by_cases hk : (k == a.1) = true
    · rw [if_pos hk] at h; cases h
    · rw [if_neg hk] at h ⊢; exact ih h

theorem mem_mapSet {st : Cache} {k v : String} {e : String × String}
    (h : e ∈ mapSet st k v) : e ∈ st ∨ e = (k, v) := by
  unfold mapSet at h
  split at h
  · rcases List.mem_map.mp h with ⟨a, ha, hae⟩
    by_cases hk : (a.1 == k) = true
    · right; rw [← hae, if_pos hk]
    · left; rw [← hae, if_neg hk]; exact ha
  · rcases List.mem_append.mp h with h2 | h2
    · left; exact h2
    · right; simpa using h2

theorem mem_trimCache {c : Cache} {e : String × String} (h : e ∈ trimCache c) : e ∈ c := by
  unfold trimCache at h
  split at h
  · exact List.drop_subset _ _ h
  · exact h

theorem mem_cacheResponse {st : Cache} {input response : String} {e : String × String}
    (h : e ∈ cacheResponse st input response) :
    e ∈ st ∨ (e = (jsToLower input, response) ∧ 3 < input.length ∧ input.length < 100
      ∧ containsConcerningContent input = false) := by
  unfold cacheResponse at h
  split at h
  · next helig =>
    rcases mem_mapSet (mem_trimCache h) with h3 | h3
    · left; exact h3
    · right; exact ⟨h3, helig⟩
  · left; exact h

/-! ## The claims -/

/-- Claim C1: for every user input containing a configured concern keyword
(case-insensitive substring), the resolver returns exactly the
safety-resources message, leaves the cache untouched, and never reaches the
cache, pattern or remote stages, whatever the cache contents, the history
and the remote outcome. -/
theorem claim_C1 (input : String) (history : List Msg) (st : Cache)
    (outcome : RemoteOutcome) (rand : Nat)
    (h : ∃ k ∈ CONCERN_KEYWORDS, strIncludes (jsToLower input) (jsToLower k) = true) :
    generateBotResponse input history st outcome rand
      = ⟨generateSafetyResourcesMessage, st, false⟩ := by
  have hc : containsConcerningContent input = true := by
    unfold containsConcerningContent
    exact List.any_eq_true.mpr h
  simp [generateBotResponse, hc]

/-- Witness for C1 at the concrete concerning input `Ich brauche Hilfe`. -/
theorem claim_C1_witness :
    generateBotResponse ("Ich brauche Hilfe") [] [("nachricht", "alt")] (.success ("ok")) 0
      = ⟨generateSafetyResourcesMessage, [("nachricht", "alt")], false⟩ :=
  claim_C1 ("Ich brauche Hilfe") [] [("nachricht", "alt")] (.success ("ok")) 0
    ⟨("hilfe"), by decide, by decide⟩

/-- Claim C2: the resolver is total on every input, history, cache state and
remote outcome, and every reply it produces is either the safety message, a
cache or pattern hit, the remote reply itself, or one of the fixed literal
fallback sentences — in particular every failure path resolves to a literal
string reply and nothing escapes to the caller. -/
theorem claim_C2 (input : String) (history : List Msg) (st : Cache)
    (outcome : RemoteOutcome) (rand : Nat) :
    (generateBotResponse input history st outcome rand).response
        = generateSafetyResourcesMessage
      ∨ getCachedResponse st input
          = some (generateBotResponse input history st outcome rand).response
      ∨ (∃ resp, outcome = RemoteOutcome.success resp
          ∧ (generateBotResponse input history st outcome rand).response = resp)
      ∨ (generateBotResponse input history st outcome rand).response ∈ errorReplies := by
  by_cases hc : (containsConcerningContent input || hasConcerningPattern history) = true
  · left; simp [generateBotResponse, hc]
  · have hcf : (containsConcerningContent input || hasConcerningPattern history) = false := by
      simpa using hc
    cases hget : getCachedResponse st input with
    | some cached =>
      right; left
      have hres : (generateBotResponse input history st outcome rand).response = cached := by
        simp [generateBotResponse, hcf, hget]
      rw [hres]
    | none =>
      cases outcome with
      | success resp =>
        by_cases hresp : resp = ""
        · right; right; right
          rw [show (generateBotResponse input history st (.success resp) rand).response
              = handleError ("Empty response received") rand by
            simp [generateBotResponse, hcf, hget, hresp]]
          exact handleError_mem _ _
        · right; right; left
          exact ⟨resp, rfl, by simp [generateBotResponse, hcf, hget, hresp]⟩
      | failure msg =>
        right; right; right
        rw [show (generateBotResponse input history st (.failure msg) rand).response
            = handleError msg rand by simp [generateBotResponse, hcf, hget]]
        exact handleError_mem _ _

/-- Claim C3: the pattern detector looks only at the last 3 user turns — it
returns true exactly when at least 2 of them individually contain
concerning content, and returns false whenever none of them does, no matter
what earlier turns contained. -/
theorem claim_C3 (msgs : List Msg) :
    (hasConcerningPattern msgs = true
      ↔ 2 ≤ (lastThreeUserTurns msgs).countP (fun m => containsConcerningContent m.text))
    ∧ ((∀ m ∈ lastThreeUserTurns msgs, containsConcerningContent m.text = false)
        → hasConcerningPattern msgs = false) := by
  have hback : ∀ (l : List Msg), l.drop (l.length - 3) = (l.reverse.take 3).reverse := by
    intro l
    exact List.rtake_eq_reverse_take_reverse l 3
  have hmain : hasConcerningPattern msgs = true
      ↔ 2 ≤ (lastThreeUserTurns msgs).countP (fun m => containsConcerningContent m.text) := by
    unfold hasConcerningPattern lastThreeUserTurns
    simp only [hback, foldl_concern_count]
    simp
  refine ⟨hmain, fun hnone => ?_⟩
  have hzero : (lastThreeUserTurns msgs).countP
      (fun m => containsConcerningContent m.text) = 0 := by
    rw [List.countP_eq_zero]
    intro a ha
    simp [hnone a ha]
  rcases hb : hasConcerningPattern msgs with _ | _
  · rfl
  · exact absurd (hmain.mp hb) (by omega)

/-- Witness for C3: a window whose last 3 user turns are clean yields false
even though an earlier user turn is concerning. -/
theorem claim_C3_witness :
    hasConcerningPattern
      [⟨("user"), ("mir wurde gewalt angetan")⟩, ⟨("user"), ("a")⟩, ⟨("user"), ("b")⟩,
        ⟨("user"), ("c")⟩] = false :=
  (claim_C3 _).2 (by decide)

theorem generate_cache_cases (input : String) (history : List Msg) (st : Cache)
    (outcome : RemoteOutcome) (rand : Nat) :
    (generateBotResponse input history st outcome rand).cache = st
      ∨ ∃ resp, (generateBotResponse input history st outcome rand).cache
          = cacheResponse st input resp := by
  by_cases hc : (containsConcerningContent input || hasConcerningPattern history) = true
  · left; simp [generateBotResponse, hc]
  · have hcf : (containsConcerningContent input || hasConcerningPattern history) = false := by
      simpa using hc
    cases hget : getCachedResponse st input with
    | some cached => left; simp [generateBotResponse, hcf, hget]
    | none =>
      cases outcome with
      | success resp =>
        by_cases hresp : resp = ""
        · left; simp [generateBotResponse, hcf, hget, hresp]
        · right; exact ⟨resp, by simp [generateBotResponse, hcf, hget, hresp]⟩
      | failure msg => left; simp [generateBotResponse, hcf, hget]

/-- Claim C4: after any sequence of resolver invocations starting from the
empty cache, every cache entry was stored for an input of length strictly
between 3 and 100 that the scanner did not flag — short, overlong or
concerning inputs are never accepted. -/
theorem claim_C4 (ops : List Op) :
    ∀ e ∈ runOps ops, 3 < e.1.length ∧ e.1.length < 100
      ∧ ∃ i, e.1 = jsToLower i ∧ 3 < i.length ∧ i.length < 100
        ∧ containsConcerningContent i = false := by
  suffices h : ∀ (st : Cache),
      (∀ e ∈ st, 3 < e.1.length ∧ e.1.length < 100
        ∧ ∃ i, e.1 = jsToLower i ∧ 3 < i.length ∧ i.length < 100
          ∧ containsConcerningContent i = false) →
      ∀ e ∈ ops.foldl
        (fun st op => (generateBotResponse op.input op.history st op.outcome op.rand).cache)
        st,
        3 < e.1.length ∧ e.1.length < 100
          ∧ ∃ i, e.1 = jsToLower i ∧ 3 < i.length ∧ i.length < 100
            ∧ containsConcerningContent i = false by
    exact h [] (by intro e he; cases he)
  induction ops with
  | nil => intro st hst; simpa using hst
  | cons op rest ih =>
    intro st hst
    simp only [List.foldl_cons]
    apply ih
    intro e he
    rcases generate_cache_cases op.input op.history st op.outcome op.rand with hcc | ⟨resp, hcc⟩
    · rw [hcc] at he; exact hst e he
    · rw [hcc] at he
      rcases mem_cacheResponse he with h1 | ⟨he2, h3, h4, h5⟩
      · exact hst e h1
      · subst he2
        refine ⟨?_, ?_, op.input, rfl, h3, h4, h5⟩
        · show 3 < (jsToLower op.input).length
          rw [length_jsToLower]; exact h3
        · show (jsToLower op.input).length < 100
          rw [length_jsToLower]; exact h4

/-- Witness for C4: running one successful resolution stores the entry
`hello there`, which satisfies the admission invariant. -/
theorem claim_C4_witness :
    3 < ("hello there").length ∧ ("hello there").length < 100
      ∧ ∃ i, ("hello there") = jsToLower i ∧ 3 < i.length ∧ i.length < 100
        ∧ containsConcerningContent i = false :=
  claim_C4 [⟨("hello there"), [], .success ("Hi!"), 0⟩] (("hello there"), ("Hi!"))
    (by decide)

/-- Claim C5: inserting a 101st distinct eligible entry into a full cache of
100 entries evicts exactly the oldest-inserted entry — the result is the
original cache minus its head plus the new entry at the tail — and a store
never leaves the cache with more than 100 entries. -/
theorem claim_C5 (st : Cache) (input response : String)
    (h100 : st.length = 100)
    (hfresh : ∀ e ∈ st, e.1 ≠ jsToLower input)
    (hlen3 : 3 < input.length) (hlen100 : input.length < 100)
    (hcon : containsConcerningContent input = false) :
    cacheResponse st input response = st.drop 1 ++ [(jsToLower input, response)]
      ∧ ∀ st2 : Cache, st2.length ≤ 100
        → (cacheResponse st2 input response).length ≤ 100 := by
  constructor
  · have hany : (st.any fun e => e.1 == jsToLower input) = false := by
      rw [List.any_eq_false]
      intro e he
      simpa using hfresh e he
    unfold cacheResponse
    rw [if_pos ⟨hlen3, hlen100, hcon⟩]
    unfold mapSet
    rw [hany]
    simp only [Bool.false_eq_true, if_false]
    unfold trimCache
    have hlenapp : (st ++ [(jsToLower input, response)]).length = 101 := by
      simp [h100]
    rw [if_pos (by rw [hlenapp]; omega)]
    cases st with
    | nil => simp at h100
    | cons a t => simp
  · intro st2 hst2
    unfold cacheResponse
    split
    · have hb : (mapSet st2 (jsToLower input) response).length ≤ st2.length + 1 := by
        unfold mapSet
        split
        · simp
        · simp
      unfold trimCache
      split
      · next hgt => simp only [List.length_drop]; omega
      · next hle => omega
    · exact hst2

/-- Witness for C5 on a concrete full cache of 100 distinct entries. -/
theorem claim_C5_witness :
    cacheResponse demoCache ("fresh input") ("Resp")
      = demoCache.drop 1 ++ [(jsToLower ("fresh input"), ("Resp"))] :=
  (claim_C5 demoCache ("fresh input") ("Resp") (by decide) (by decide) (by decide)
    (by decide) (by decide)).1

/-- Claim C6: every remote reply rejected by the output filter is replaced
by the fallback-origin redirect sentence and that sentence is cached under
the original input's cache key, while a reply containing the carved-out
phrase `sexual abuse` in an otherwise clean sentence passes the filter and
is returned verbatim with origin `api`. -/
theorem claim_C6 :
    (∀ (m : String) (histLen : Nat) (cache : Cache) (reply : String),
      m ≠ "" → cache.lookup (mkCacheKey m histLen) = none → isSafeResponse reply = false →
      handlerNew ("POST") (some m) histLen true cache (.ok reply)
        = (.resp 200 SAFE_REDIRECT ("fallback"),
           mapSet cache (mkCacheKey m histLen) SAFE_REDIRECT))
    ∧ isSafeResponse carveOutReply = true
    ∧ (∀ (m : String) (histLen : Nat) (cache : Cache),
      m ≠ "" → cache.lookup (mkCacheKey m histLen) = none →
      handlerNew ("POST") (some m) histLen true cache (.ok carveOutReply)
        = (.resp 200 carveOutReply ("api"),
           trimCache (mapSet cache (mkCacheKey m histLen) carveOutReply))) := by
  refine ⟨?_, by decide, ?_⟩
  · intro m histLen cache reply hm hl hblocked
    simp [handlerNew, hm, hl, handleApiRequest, hblocked]
  · intro m histLen cache hm hl
    simp [handlerNew, hm, hl, handleApiRequest,
      (by decide : isSafeResponse carveOutReply = true)]

/-- Witness for C6 at a concrete blocked reply. -/
theorem claim_C6_witness :
    handlerNew ("POST") (some ("hallo")) 0 true [] (.ok ("Das ist explicit."))
      = (.resp 200 SAFE_REDIRECT ("fallback"),
         mapSet [] (mkCacheKey ("hallo") 0) SAFE_REDIRECT) :=
  claim_C6.1 ("hallo") 0 [] ("Das ist explicit.") (by decide) (by decide) (by decide)

/-- Claim C7: once a resolution has left the reply for an input in the
exact-match cache, resolving the identical input over the same window again
returns exactly that reply, leaves the cache unchanged, and does not run
the remote stage a second time. -/
theorem claim_C7 (input : String) (history : List Msg) (st : Cache)
    (o1 : RemoteOutcome) (r1 : Nat) (o2 : RemoteOutcome) (r2 : Nat)
    (h : ((generateBotResponse input history st o1 r1).cache).lookup (jsToLower input)
      = some (generateBotResponse input history st o1 r1).response) :
    generateBotResponse input history
        ((generateBotResponse input history st o1 r1).cache) o2 r2
      = ⟨(generateBotResponse input history st o1 r1).response,
         (generateBotResponse input history st o1 r1).cache, false⟩ := by
  set R := generateBotResponse input history st o1 r1 with hR
  by_cases hc : (containsConcerningContent input || hasConcerningPattern history) = true
  · have h1 : R = ⟨generateSafetyResourcesMessage, st, false⟩ := by
      rw [hR]; simp [generateBotResponse, hc]
    rw [h1]
    simp [generateBotResponse, hc]
  · have hcf : (containsConcerningContent input || hasConcerningPattern history) = false := by
      simpa using hc
    have hget : getCachedResponse R.cache input = some R.response := by
      unfold getCachedResponse
      rw [h]
    simp [generateBotResponse, hcf, hget]

/-- Witness for C7: the entry stored by a first successful resolution is
replayed from the cache even when the remote stage would now fail. -/
theorem claim_C7_witness :
    generateBotResponse ("wie ist das wetter") []
        ((generateBotResponse ("wie ist das wetter") [] []
          (.success ("Schönes Wetter heute!")) 0).cache)
        (.failure ("boom")) 3
      = ⟨(generateBotResponse ("wie ist das wetter") [] []
            (.success ("Schönes Wetter heute!")) 0).response,
         (generateBotResponse ("wie ist das wetter") [] []
            (.success ("Schönes Wetter heute!")) 0).cache, false⟩ :=
  claim_C7 ("wie ist das wetter") [] [] (.success ("Schönes Wetter heute!")) 0
    (.failure ("boom")) 3 (by decide)

/-- Counterexample to claim C8: two resolutions that fail with the very
same kind — an empty remote response — return different sentences for
different random draws, so the empty-response kind does not map to exactly
one literal sentence. -/
theorem claim_C8_counterexample :
    (generateBotResponse ("was ist los heute") [] [] (.success ("")) 0).response
      ≠ (generateBotResponse ("was ist los heute") [] [] (.success ("")) 1).response := by
  decide

/-- Claim C8 as amended: every specifically classified error message maps
to exactly one literal sentence independent of the random draw; every reply
the catch block can produce comes from the fixed list of ten literal
child-appropriate sentences (so no raw error text, stack or credential is
ever echoed); but the empty-response kind falls through to the generic
branch and maps pseudo-randomly to one of four fixed fallback sentences. -/
theorem claim_C8_amended :
    (∀ (msg : String) (r1 r2 : Nat), isSpecificErr msg = true
      → handleError msg r1 = handleError msg r2)
    ∧ (∀ (msg : String) (r : Nat), handleError msg r ∈ errorReplies)
    ∧ (∀ r : Nat, handleError ("Empty response received") r
        = fallbackResponses.getD (r % 4) ("")) := by
  refine ⟨?_, handleError_mem, ?_⟩
  · intro msg r1 r2 hs
    unfold handleError
    split
    · rfl
    · next h1 =>
      split
      · rfl
      · next h2 =>
        split
        · rfl
        · next h3 =>
          split
          · rfl
          · next h4 =>
            split
            · rfl
            · next h5 =>
              split
              · rfl
              · next h6 =>
                exfalso
                simp [isSpecificErr, beq_iff_eq, h1, h2, h3, h4, h5, h6] at hs
  · intro r
    rfl

/-- Witness for the amended C8 at the timeout kind. -/
theorem claim_C8_witness :
    handleError ("Request timeout") 0 = handleError ("Request timeout") 5 :=
  claim_C8_amended.1 ("Request timeout") 0 5 (by decide)

/-- Counterexample to claim C9: on the missing-credential path the two
route versions disagree — the old one answers 200 with the key reply and
source `error`, the new one crashes in its outer catch. -/
theorem claim_C9_counterexample :
    handlerOld ("POST") (some ("hallo")) 0 false [] (.ok ("x"))
      ≠ handlerNew ("POST") (some ("hallo")) 0 false [] (.ok ("x")) := by
  decide

/-- Claim C9 as amended: the two route versions agree on the method check,
missing message, cache hit, successful (filter-passing and filter-rejected) reply and timeout
paths, and on every other path they diverge in one fixed way — the new
version crashes while leaving the cache unchanged, where the old version
answers 200 with a fallback sentence under source `auth_error` or `error`,
also leaving the cache unchanged. -/
theorem claim_C9_amended (method : String) (message : Option String) (histLen : Nat)
    (hasKey : Bool) (cache : Cache) (remote : RemoteResult) :
    handlerOld method message histLen hasKey cache remote
        = handlerNew method message histLen hasKey cache remote
      ∨ ((handlerNew method message histLen hasKey cache remote).1 = HandlerResult.crash
        ∧ (handlerNew method message histLen hasKey cache remote).2 = cache
        ∧ (handlerOld method message histLen hasKey cache remote).2 = cache
        ∧ ∃ s, (handlerOld method message histLen hasKey cache remote).1
              = HandlerResult.resp 200 s ("auth_error")
          ∨ (handlerOld method message histLen hasKey cache remote).1
              = HandlerResult.resp 200 s ("error")) := by
  unfold handlerOld handlerNew
  by_cases hm : method ≠ ("POST")
  · rw [if_pos hm, if_pos hm]; left; rfl
  · rw [if_neg hm, if_neg hm]
    cases message with
    | none => left; rfl
    | some m =>
      dsimp only
      by_cases hempty : m = ""
      · rw [if_pos hempty, if_pos hempty]; left; rfl
      · rw [if_neg hempty, if_neg hempty]
        cases hl : cache.lookup (mkCacheKey m histLen) with
        | some v => left; rfl
        | none =>
          cases hasKey with
          | false =>
            right
            exact ⟨rfl, rfl, rfl, classifyOldOuter ("Missing API key"), Or.inr rfl⟩
          | true =>
            cases remote with
            | ok content => left; rfl
            | abortErr => left; rfl
            | netErr msg =>
              right
              exact ⟨rfl, rfl, rfl, classifyOldOuter msg, Or.inr rfl⟩
            | httpErr status msg mi =>
              simp only [handleApiRequest]
              by_cases h401 : status = 401
              · rw [if_pos (Or.inl h401), if_pos h401]
                right
                exact ⟨rfl, rfl, rfl, API_AUTH_RESP, Or.inl rfl⟩
              · by_cases h403 : status = 403
                · rw [if_pos (Or.inr h403), if_neg h401]
                  right
                  exact ⟨rfl, rfl, rfl, classifyOldOuter msg, Or.inr rfl⟩
                · rw [if_neg (not_or.mpr ⟨h401, h403⟩), if_neg h401]
                  cases mi with
                  | true =>
                    right
                    exact ⟨rfl, rfl, rfl, classifyOldOuter msg, Or.inr rfl⟩
                  | false =>
                    right
                    refine ⟨?_, ?_, rfl, classifyOldOuter msg, Or.inr rfl⟩
                    · simp [h401]
                    · simp [h401]

theorem lookup_trimSet {cache : Cache} {k v : String} (h : cache.lookup k = none) :
    (trimCache (mapSet cache k v)).lookup k = some v := by
  have hany : (cache.any fun e => e.1 == k) = false := by
    rw [List.any_eq_false]
    intro e he
    have h2 := lookup_none_forall h e he
    cases hb : e.1 == k
    · simp
    · exfalso
      have hek : e.1 = k := by simpa using hb
      rw [hek] at h2
      simp at h2
  unfold mapSet
  rw [hany]
  simp only [Bool.false_eq_true, if_false]
  unfold trimCache
  split
  · next hlen =>
    cases cache with
    | nil => simp at hlen
    | cons a t =>
      have ht : (t : Cache).lookup k = none := by
        rw [lookup_cons_pair] at h
        split at h
        · cases h
        · exact h
      rw [show ((a :: t : Cache) ++ [(k, v)]).drop 1 = t ++ [(k, v)] by simp]
      rw [lookup_append_left_none ht, lookup_cons_pair]
      simp
  · rw [lookup_append_left_none h, lookup_cons_pair]
    simp

/-- Claim C10: the route keeps its own exact-match cache keyed by the raw
message joined with `:` and the history length, accepting every message —
no lowercasing, no length bound and no concern screening — so any message
posted twice with a same-length history is answered the second time from
the cache with source `cache`, concern keywords included. -/
theorem claim_C10 (m : String) (histLen : Nat) (cache : Cache) (content : String)
    (hm : m ≠ "")
    (hmiss : cache.lookup (mkCacheKey m histLen) = none)
    (hsafe : isSafeResponse content = true) :
    handlerNew ("POST") (some m) histLen true cache (.ok content)
        = (.resp 200 content ("api"),
           trimCache (mapSet cache (mkCacheKey m histLen) content))
      ∧ ∀ (hasKey2 : Bool) (remote2 : RemoteResult),
          handlerNew ("POST") (some m) histLen hasKey2
              (trimCache (mapSet cache (mkCacheKey m histLen) content)) remote2
            = (.resp 200 content ("cache"),
               trimCache (mapSet cache (mkCacheKey m histLen) content)) := by
  constructor
  · simp [handlerNew, hm, hmiss, handleApiRequest, hsafe]
  · intro hasKey2 remote2
    have hhit : (trimCache (mapSet cache (mkCacheKey m histLen) content)).lookup
        (mkCacheKey m histLen) = some content := lookup_trimSet hmiss
    simp [handlerNew, hm, hhit]

/-- Witness for C10: a message made of concern keywords is itself served
from the route cache on the second request, with no credential present and
a failing remote. -/
theorem claim_C10_witness :
    handlerNew ("POST") (some ("missbrauch in der schule")) 2 false
        (trimCache (mapSet [] (mkCacheKey ("missbrauch in der schule") 2)
          ("Hier ist eine Antwort.")))
        (.netErr ("boom"))
      = (.resp 200 ("Hier ist eine Antwort.") ("cache"),
         trimCache (mapSet [] (mkCacheKey ("missbrauch in der schule") 2)
           ("Hier ist eine Antwort."))) :=
  (claim_C10 ("missbrauch in der schule") 2 [] ("Hier ist eine Antwort.")
    (by decide) (by decide) (by decide)).2 false (.netErr ("boom"))

end Chatbot
